import Mathlib

/-!
Shallow embedding of the FlagPerf repository's two source files:

* `training/benchmarks/retinanet/pytorch/train/trainer.py` — the `Trainer`
  class with `init`, `train_one_epoch` and `evaluate`.  The framework calls
  (data loading, forward, backward, distributed reduction, the COCO
  evaluator) are opaque to the repository, so each mini-batch is modelled by
  the observable behaviour of those calls: the reduced loss value produced by
  the forward/reduce chain (a Python float, possibly NaN or infinite), the
  outcome of the backward call, and the wall-clock compute-time delta.  The
  method itself is embedded as a function from an initial `TrainingState`
  (explicit state passing) to a final state, an event trace recording the
  order of the side effects the Python code performs, and an outcome
  (normal return, `sys.exit`, or a propagated exception).

* `training/nvidia/gpt3_13B-paddle/config/config_TP1PP1SH2SP8A10080Gx1x8.py`
  — a flat set of named scalar hyperparameters; its numeric literals are
  embedded directly.

Python floats that the trainer only stores and compares (mAP values, times)
are modelled as rationals; the per-step loss keeps the non-finite values
because the code branches on `math.isfinite`.
-/

namespace FlagPerf

/-- A Python float as observed by the trainer's loss check: either a finite
value (modelled as a rational) or one of the non-finite values NaN, +inf,
-inf that `math.isfinite` rejects. -/
inductive PyFloat where
  | finite (q : ℚ)
  | nan
  | posInf
  | negInf
deriving DecidableEq

/-- `math.isfinite` on the modelled float. -/
def PyFloat.isfinite : PyFloat → Bool
  | PyFloat.finite _ => true
  | _ => false

/-- Exceptions that framework calls inside the trainer can raise; the
trainer installs no handler for any of them. -/
inductive Err where
  | dataLoad
  | forward
  | backwardFail
  | comm
  | indexError
  | other (msg : String)
deriving DecidableEq

/-- Observable side effects of `Trainer.train_one_epoch`, in program order:
a completed backward/optimizer step for mini-batch `i`, creation of the
warmup lr scheduler (with its `warmup_iters` argument), a step of that
warmup scheduler, the diagnostic print before `sys.exit(1)`, the per-epoch
`self.lr_scheduler.step()`, the call to `self.evaluate`, the write of
`state.eval_mAP`, `state.converged_success()`, and the write
`state.end_training = True`. -/
inductive Event where
  | backwardStep (i : Nat)
  | warmupCreated (iters : Int)
  | warmupStep
  | printLossDiag (v : PyFloat)
  | epochLrStep
  | evaluateCall
  | setEvalMAP (v : ℚ)
  | setConverged
  | setEndTraining
deriving DecidableEq

/-- Abnormal termination of the mini-batch loop: `sys.exit(code)` or an
uncaught exception. -/
inductive Abort where
  | exited (code : Nat)
  | raised (e : Err)
deriving DecidableEq

/-- How a call to `train_one_epoch` (or `evaluate`) ends: normal return,
process exit with a status code, or a propagated exception. -/
inductive Outcome where
  | normal
  | exited (code : Nat)
  | raised (e : Err)
deriving DecidableEq

/-- The hyperparameter configuration object `self.config` as read by the
retinanet trainer: `device`, `distributed`, `log_freq`, `target_mAP`,
`max_epoch`, plus the fields `create_optimizer` consumes.  The trainer only
reads these fields. -/
structure Config where
  device : String
  distributed : Bool
  log_freq : Nat
  target_mAP : ℚ
  max_epoch : Int
  learning_rate : ℚ
  train_batch_size : Nat
deriving DecidableEq

/-- The mutable `TrainingState` record, with the fields
`Trainer.train_one_epoch` reads or writes: the epoch counter, the
cumulative sample count, the two timing accumulators, the evaluation score
and the two termination flags. -/
structure TrainingState where
  epoch : Int
  num_trained_samples : Nat
  pure_compute_time : ℚ
  no_eval_time : ℚ
  eval_mAP : ℚ
  converged : Bool
  end_training : Bool
deriving DecidableEq

/-- Modelled from the spec: `TrainingState.converged_success` is defined in
`train/training_state.py`, which is not among the given source files; per
the spec the trainer is to "mark the run \"converged\" once that metric
meets or exceeds a configured target", so the method sets the converged
flag of the training state. -/
def TrainingState.converged_success (s : TrainingState) : TrainingState :=
  { s with converged := true }

deriving instance DecidableEq for Except

/-- The observable behaviour of the framework calls made for one mini-batch
of the training loop: `forwardResult` is the combined outcome of iterating
the data loader, the model forward pass and `reduce_dict`, ending in the
value `losses_reduced.item()` (or an exception anywhere in that chain);
`backwardResult` is the outcome of `self.adapter.backward`;
`computeTime` is the wall-clock delta added to `pure_compute_time`. -/
structure BatchBehavior where
  forwardResult : Except Err PyFloat
  backwardResult : Except Err Unit
  computeTime : ℚ
deriving DecidableEq

/-- A mini-batch on which every framework call succeeds and the reduced
loss is finite: the loop body runs to completion for it. -/
def BatchBehavior.fine (b : BatchBehavior) : Bool :=
  match b.forwardResult, b.backwardResult with
  | Except.ok v, Except.ok _ => v.isfinite
  | _, _ => false

/-- All mini-batches of the epoch complete the loop body. -/
def allFine (l : List BatchBehavior) : Bool := l.all BatchBehavior.fine

/-- Total compute time of a list of mini-batches. -/
def sumT : List BatchBehavior → ℚ
  | [] => 0
  | b :: rest => b.computeTime + sumT rest

/-- The trace the mini-batch loop emits when every batch completes,
starting at batch index `i`: a backward step per batch, followed in epoch 0
by a step of the warmup lr scheduler (`if lr_scheduler is not None:
lr_scheduler.step()`). -/
def batchTrace (epoch : Int) : Nat → List BatchBehavior → List Event
  | _, [] => []
  | i, _ :: rest =>
    (Event.backwardStep i :: (if epoch = 0 then [Event.warmupStep] else []))
      ++ batchTrace epoch (i + 1) rest

/-- The trace of the warmup-scheduler creation: in epoch 0 the trainer
builds `utils.utils.warmup_lr_scheduler(optimizer, warmup_iters,
warmup_factor)` with `warmup_iters = min(1000, len(data_loader) - 1)`;
in any other epoch `lr_scheduler` stays `None`. -/
def createTrace (epoch : Int) (numBatches : Nat) : List Event :=
  if epoch = 0 then [Event.warmupCreated (min 1000 ((numBatches : Int) - 1))]
  else []

/-- The mini-batch loop of `train_one_epoch` (lines 74-106), starting at
batch index `i`: per batch it evaluates the forward/reduce chain, checks
`math.isfinite(loss_value)` and on failure prints the diagnostics and calls
`sys.exit(1)`, otherwise runs backward, steps the warmup scheduler when it
exists (epoch 0), and accumulates the batch's compute time into
`pure_compute_time`.  Returns the state after the processed prefix, the
emitted events, and `none` on normal loop exit or the abort that stopped
the loop. -/
def runBatches (epoch : Int) :
    Nat → List BatchBehavior → TrainingState →
    TrainingState × List Event × Option Abort
  | _, [], s => (s, [], none)
  | i, b :: rest, s =>
    match b.forwardResult with
    | Except.error e => (s, [], some (Abort.raised e))
    | Except.ok v =>
      if v.isfinite then
        match b.backwardResult with
        | Except.error e => (s, [], some (Abort.raised e))
        | Except.ok _ =>
          let s' := { s with pure_compute_time := s.pure_compute_time + b.computeTime }
          let r := runBatches epoch (i + 1) rest s'
          (r.1,
           (Event.backwardStep i :: (if epoch = 0 then [Event.warmupStep] else []))
             ++ r.2.1,
           r.2.2)
      else
        (s, [Event.printLossDiag v], some (Abort.exited 1))

/-- The per-call inputs of `train_one_epoch` that come from outside the
trainer: the behaviour of each mini-batch of `train_dataloader`, the length
of `data_loader.dataset`, the wall-clock delta added to `no_eval_time`, and
the result of the evaluation phase — either an exception propagating out of
`self.evaluate` or the list `self.evaluator.coco_eval['bbox'].stats.tolist()`
read after it. -/
structure EpochInputs where
  batches : List BatchBehavior
  datasetLen : Nat
  noEvalTime : ℚ
  evalRun : Except Err (List ℚ)
deriving DecidableEq

/-- Result of a call to `train_one_epoch`: the training state (with every
mutation made before the call ended), the `self.config` object as left by
the call, the event trace, and the outcome. -/
structure EpochResult where
  state : TrainingState
  config : Config
  trace : List Event
  outcome : Outcome
deriving DecidableEq

/-- `Trainer.train_one_epoch` (trainer.py lines 47-124).  Reads
`epoch = state.epoch`; in epoch 0 creates the warmup scheduler with
`warmup_iters = min(1000, len(data_loader) - 1)`; runs the mini-batch loop;
then steps the per-epoch scheduler, adds `len(data_loader.dataset)` to
`num_trained_samples` and the no-eval wall-clock delta to `no_eval_time`;
calls `self.evaluate`; stores `stats.tolist()[0]` into `state.eval_mAP`
(an empty stats list would make the Python subscript raise); calls
`state.converged_success()` when `eval_mAP >= config.target_mAP`; and sets
`state.end_training = True` when `epoch >= config.max_epoch`. -/
def train_one_epoch (config : Config) (inp : EpochInputs) (s0 : TrainingState) :
    EpochResult :=
  let epoch := s0.epoch
  let createEvs := createTrace epoch inp.batches.length
  let r := runBatches epoch 0 inp.batches s0
  match r.2.2 with
  | some (Abort.exited c) =>
      { state := r.1, config := config, trace := createEvs ++ r.2.1,
        outcome := Outcome.exited c }
  | some (Abort.raised e) =>
      { state := r.1, config := config, trace := createEvs ++ r.2.1,
        outcome := Outcome.raised e }
  | none =>
    let s2 := { r.1 with
      num_trained_samples := r.1.num_trained_samples + inp.datasetLen,
      no_eval_time := r.1.no_eval_time + inp.noEvalTime }
    let evs2 := createEvs ++ r.2.1 ++ [Event.epochLrStep]
    match inp.evalRun with
    | Except.error e =>
        { state := s2, config := config, trace := evs2 ++ [Event.evaluateCall],
          outcome := Outcome.raised e }
    | Except.ok [] =>
        { state := s2, config := config, trace := evs2 ++ [Event.evaluateCall],
          outcome := Outcome.raised Err.indexError }
    | Except.ok (m :: _) =>
      let s3 := { s2 with eval_mAP := m }
      let evs3 := evs2 ++ [Event.evaluateCall, Event.setEvalMAP m]
      let p4 : TrainingState × List Event :=
        if s3.eval_mAP ≥ config.target_mAP then
          (s3.converged_success, evs3 ++ [Event.setConverged])
        else (s3, evs3)
      let p5 : TrainingState × List Event :=
        if epoch ≥ config.max_epoch then
          ({ p4.1 with end_training := true }, p4.2 ++ [Event.setEndTraining])
        else p4
      { state := p5.1, config := config, trace := p5.2, outcome := Outcome.normal }

/-- The per-call inputs of `Trainer.evaluate` that come from outside the
trainer: the outcome of each evaluation mini-batch (data loading, forward
and the per-image result extraction may raise), and the bbox stats the
evaluator holds after `accumulate`/`summarize`. -/
structure EvalInputs where
  batchResults : List (Except Err Unit)
  stats : List ℚ
deriving DecidableEq

/-- Result of `Trainer.evaluate`: the stats of the freshly built evaluator
when the loop finished (`none` when an exception escaped first), the
`self.config` object as left by the call, and the outcome. -/
structure EvalResult where
  evaluatorStats : Option (List ℚ)
  config : Config
  outcome : Outcome
deriving DecidableEq

/-- First exception raised while iterating the evaluation loader. -/
def firstErr : List (Except Err Unit) → Option Err
  | [] => none
  | Except.error e :: _ => some e
  | Except.ok _ :: rest => firstErr rest

/-- `Trainer.evaluate` (trainer.py lines 126-166): builds a fresh
`Evaluator`, loops over the evaluation batches — any exception propagates —
then synchronizes, accumulates and summarizes the evaluator and returns it.
The method contains no try/except and never writes `self.config`. -/
def Trainer.evaluate (config : Config) (inp : EvalInputs) : EvalResult :=
  match firstErr inp.batchResults with
  | some e => { evaluatorStats := none, config := config, outcome := Outcome.raised e }
  | none => { evaluatorStats := some inp.stats, config := config, outcome := Outcome.normal }

/-- Result of `Trainer.init`: the model/optimizer/scheduler triple is
created (their internals belong to the framework and are opaque here) and
the `self.config` object as left by the call. -/
structure InitResult where
  modelCreated : Bool
  optimizerCreated : Bool
  schedulerCreated : Bool
  config : Config
deriving DecidableEq

/-- `Trainer.init` (trainer.py lines 33-45): builds the model, converts it
via the adapter, and creates the optimizer and lr scheduler from
`self.config`.  It only reads the config. -/
def Trainer.init (config : Config) : InitResult :=
  { modelCreated := true, optimizerCreated := true, schedulerCreated := true,
    config := config }

/-- An exception `e` is the first failure the `train_one_epoch` call runs
into: either some mini-batch raises it (in the data-loading/forward/reduce
chain, or in backward after a finite loss) with every earlier batch fine,
or every batch is fine and `evaluate` raises it. -/
def raisesFirst (inp : EpochInputs) (e : Err) : Prop :=
  (∃ pre b post, inp.batches = pre ++ b :: post ∧ allFine pre = true ∧
    (b.forwardResult = Except.error e ∨
      (∃ v, b.forwardResult = Except.ok v ∧ v.isfinite = true ∧
        b.backwardResult = Except.error e))) ∨
  (allFine inp.batches = true ∧ inp.evalRun = Except.error e)

/-- A concrete configuration for the witness runs. -/
def cfg0 : Config :=
  { device := "cuda", distributed := false, log_freq := 10, target_mAP := mkRat 35 100,
    max_epoch := 10, learning_rate := mkRat 2 100, train_batch_size := 2 }

/-- A fresh training state (epoch 0, clear flags). -/
def state0 : TrainingState :=
  { epoch := 0, num_trained_samples := 0, pure_compute_time := 0, no_eval_time := 0,
    eval_mAP := 0, converged := false, end_training := false }

/-- A training state in a later epoch with both termination flags set. -/
def stateFlags : TrainingState :=
  { epoch := 3, num_trained_samples := 8, pure_compute_time := 1, no_eval_time := 1,
    eval_mAP := mkRat 1 10, converged := true, end_training := true }

/-- A mini-batch whose framework calls all succeed with a finite loss. -/
def goodBatch : BatchBehavior :=
  { forwardResult := Except.ok (PyFloat.finite 1), backwardResult := Except.ok (),
    computeTime := 1 }

/-- A mini-batch whose reduced loss comes back NaN. -/
def badLossBatch : BatchBehavior :=
  { forwardResult := Except.ok PyFloat.nan, backwardResult := Except.ok (),
    computeTime := 1 }

/-- An epoch in which everything succeeds and evaluation reports
bbox stats `[0.4, 0.6]`. -/
def inpOk : EpochInputs :=
  { batches := [goodBatch, goodBatch], datasetLen := 4, noEvalTime := 1,
    evalRun := Except.ok [mkRat 2 5, mkRat 3 5] }

/-- An epoch whose second mini-batch produces a NaN loss. -/
def inpNan : EpochInputs :=
  { batches := [goodBatch, badLossBatch, goodBatch], datasetLen := 4, noEvalTime := 1,
    evalRun := Except.ok [mkRat 2 5] }

/-- An epoch in which evaluation raises a communication fault. -/
def inpComm : EpochInputs :=
  { batches := [goodBatch], datasetLen := 4, noEvalTime := 1,
    evalRun := Except.error Err.comm }

/-- A mini-batch completes the loop body exactly when its forward/reduce
chain returns a finite loss and backward succeeds. -/
theorem BatchBehavior.fine_iff (b : BatchBehavior) :
    b.fine = true ↔
      ∃ v, b.forwardResult = Except.ok v ∧ v.isfinite = true ∧
        b.backwardResult = Except.ok () := by
  unfold BatchBehavior.fine
  cases hf : b.forwardResult <;> cases hb : b.backwardResult <;> simp

/-- The mini-batch loop only writes `pure_compute_time`: every other field
of the training state is untouched, whatever the batches do. -/
theorem runBatches_preserves (epoch : Int) (l : List BatchBehavior) :
    ∀ (i : Nat) (s : TrainingState),
      (runBatches epoch i l s).1.converged = s.converged ∧
      (runBatches epoch i l s).1.end_training = s.end_training ∧
      (runBatches epoch i l s).1.num_trained_samples = s.num_trained_samples ∧
      (runBatches epoch i l s).1.no_eval_time = s.no_eval_time ∧
      (runBatches epoch i l s).1.eval_mAP = s.eval_mAP ∧
      (runBatches epoch i l s).1.epoch = s.epoch := by
  induction l with
  | nil => intro i s; simp [runBatches]
  | cons b rest ih =>
    intro i s
    cases hf : b.forwardResult with
    | error e => simp [runBatches, hf]
    | ok v =>
      cases hfin : v.isfinite with
      | false => simp [runBatches, hf, hfin]
      | true =>
        cases hb : b.backwardResult with
        | error e => simp [runBatches, hf, hfin, hb]
        | ok u =>
          have h := ih (i + 1) { s with pure_compute_time := s.pure_compute_time + b.computeTime }
          simpa [runBatches, hf, hfin, hb] using h

/-- When every mini-batch completes, the loop returns normally, adds the
total compute time, and emits exactly the per-batch trace. -/
theorem runBatches_allFine (epoch : Int) (l : List BatchBehavior) :
    ∀ (i : Nat) (s : TrainingState), allFine l = true →
      runBatches epoch i l s =
        ({ s with pure_compute_time := s.pure_compute_time + sumT l },
          batchTrace epoch i l, none) := by
  induction l with
  | nil => intro i s _; simp [runBatches, sumT, batchTrace]
  | cons b rest ih =>
    intro i s h
    rw [allFine, List.all_cons, Bool.and_eq_true] at h
    obtain ⟨hb, hrest⟩ := h
    obtain ⟨v, hf, hfin, hbw⟩ := (BatchBehavior.fine_iff b).mp hb
    simp only [runBatches, hf, hfin, hbw, if_true]
    rw [ih (i + 1) _ hrest]
    simp [batchTrace, sumT, add_assoc]

/-- Splitting the loop after a fine prefix: the loop runs the prefix to
completion and continues on the remainder from the updated state. -/
theorem runBatches_append (epoch : Int) (pre : List BatchBehavior) :
    ∀ (i : Nat) (s : TrainingState) (rest : List BatchBehavior), allFine pre = true →
      runBatches epoch i (pre ++ rest) s =
        ((runBatches epoch (i + pre.length) rest
            { s with pure_compute_time := s.pure_compute_time + sumT pre }).1,
         batchTrace epoch i pre ++
           (runBatches epoch (i + pre.length) rest
             { s with pure_compute_time := s.pure_compute_time + sumT pre }).2.1,
         (runBatches epoch (i + pre.length) rest
            { s with pure_compute_time := s.pure_compute_time + sumT pre }).2.2) := by
  induction pre with
  | nil =>
    intro i s rest _
    simp [sumT, batchTrace]
  | cons b pr ih =>
    intro i s rest h
    rw [allFine, List.all_cons, Bool.and_eq_true] at h
    obtain ⟨hb, hpr⟩ := h
    obtain ⟨v, hf, hfin, hbw⟩ := (BatchBehavior.fine_iff b).mp hb
    simp only [List.cons_append, runBatches, hf, hfin, hbw, if_true, List.append_eq]
    rw [ih (i + 1) _ rest hpr]
    have hidx : i + 1 + pr.length = i + (b :: pr).length := by
      simp [List.length_cons]; omega
    rw [hidx]
    simp [batchTrace, sumT, add_assoc]

/-- A batch whose forward/reduce chain raises stops the loop with that
exception, before any further effect. -/
theorem runBatches_cons_forwardError (epoch : Int) (i : Nat) (b : BatchBehavior)
    (rest : List BatchBehavior) (s : TrainingState) (e : Err)
    (hf : b.forwardResult = Except.error e) :
    runBatches epoch i (b :: rest) s = (s, [], some (Abort.raised e)) := by
  simp [runBatches, hf]

/-- A batch with a non-finite reduced loss makes the loop print the
diagnostics and call `sys.exit(1)`, before the backward pass. -/
theorem runBatches_cons_nonfinite (epoch : Int) (i : Nat) (b : BatchBehavior)
    (rest : List BatchBehavior) (s : TrainingState) (v : PyFloat)
    (hf : b.forwardResult = Except.ok v) (hnf : v.isfinite = false) :
    runBatches epoch i (b :: rest) s =
      (s, [Event.printLossDiag v], some (Abort.exited 1)) := by
  simp [runBatches, hf, hnf]

/-- A batch whose backward pass raises (after a finite loss) stops the loop
with that exception. -/
theorem runBatches_cons_backwardError (epoch : Int) (i : Nat) (b : BatchBehavior)
    (rest : List BatchBehavior) (s : TrainingState) (v : PyFloat) (e : Err)
    (hf : b.forwardResult = Except.ok v) (hfin : v.isfinite = true)
    (hb : b.backwardResult = Except.error e) :
    runBatches epoch i (b :: rest) s = (s, [], some (Abort.raised e)) := by
  simp [runBatches, hf, hfin, hb]

/-- Events of the mini-batch trace are backward steps or warmup-scheduler
steps only. -/
theorem batchTrace_mem (epoch : Int) (l : List BatchBehavior) :
    ∀ (i : Nat) (e : Event), e ∈ batchTrace epoch i l →
      (∃ j, e = Event.backwardStep j) ∨ e = Event.warmupStep := by
  induction l with
  | nil => intro i e he; simp [batchTrace] at he
  | cons b rest ih =>
    intro i e he
    by_cases h0 : epoch = 0
    · subst h0
      simp [batchTrace] at he
      rcases he with h | h | h
      · exact Or.inl ⟨i, h⟩
      · exact Or.inr h
      · exact ih (i + 1) e h
    · simp [batchTrace, h0] at he
      rcases he with h | h
      · exact Or.inl ⟨i, h⟩
      · exact ih (i + 1) e h

/-- The backward steps recorded by the mini-batch trace starting at index
`i` are exactly those for batches `i, …, i + length - 1`. -/
theorem batchTrace_mem_backwardStep (epoch : Int) (l : List BatchBehavior) :
    ∀ (i j : Nat),
      Event.backwardStep j ∈ batchTrace epoch i l ↔ (i ≤ j ∧ j < i + l.length) := by
  induction l with
  | nil => intro i j; simp [batchTrace]
  | cons b rest ih =>
    intro i j
    by_cases h0 : epoch = 0
    · subst h0
      simp [batchTrace, ih (i + 1) j]
      omega
    · simp [batchTrace, h0, ih (i + 1) j]
      omega

/-- In epoch 0 the warmup scheduler is stepped once per completed batch; in
any other epoch it is never stepped. -/
theorem batchTrace_count_warmupStep (epoch : Int) (l : List BatchBehavior) :
    ∀ (i : Nat), (batchTrace epoch i l).count Event.warmupStep =
      if epoch = 0 then l.length else 0 := by
  induction l with
  | nil => intro i; simp [batchTrace]
  | cons b rest ih =>
    intro i
    by_cases h0 : epoch = 0
    · subst h0
      simp [batchTrace, List.count_cons, List.count_append, ih (i + 1)]
    · simp [batchTrace, h0, List.count_cons, List.count_append, ih (i + 1)]

/-- The warmup-creation trace contains only the creation event, with the
`warmup_iters` argument the code computes. -/
theorem createTrace_mem (epoch : Int) (n : Nat) (e : Event)
    (he : e ∈ createTrace epoch n) :
    e = Event.warmupCreated (min 1000 ((n : Int) - 1)) ∧ epoch = 0 := by
  unfold createTrace at he
  by_cases h0 : epoch = 0 <;> simp [h0] at he
  exact ⟨he, h0⟩

end FlagPerf

namespace Gpt3Config

/-! Literal hyperparameters of
`training/nvidia/gpt3_13B-paddle/config/config_TP1PP1SH2SP8A10080Gx1x8.py`
(training-info section). -/

def max_steps : Nat := 100

def save_steps : Nat := 10000

def eval_steps : Nat := 5000000

def warmup_steps : Nat := 188

def decay_steps : Nat := 130 * 1024 * 1024

def lr_scheduler_type : String := "cosine"

def learning_rate : ℚ := 12 / 100000

def min_learning_rate : ℚ := 12 / 1000000

/-- Modelled from the spec: the learning-rate schedule named by
`lr_scheduler_type = "cosine"` with `warmup_steps` warmup steps is
implemented by the separate Paddle training entry point, not by a source
file given here; per the spec it is a "learning-rate schedule" with a
warmup phase of `warmup_steps` optimizer steps followed by the cosine decay
phase, so step `s` (0-based) is still in the warmup phase exactly when
`s < warmup_steps`. -/
def inWarmupPhase (s : Nat) : Bool := s < warmup_steps

end Gpt3Config

namespace FlagPerf

/-- C1: after an epoch whose evaluation completes, the converged flag is
true iff the evaluated metric stored in `eval_mAP` (the first bbox stat) is
at least `config.target_mAP`. -/
theorem converged_iff_target (config : Config) (inp : EpochInputs) (s0 : TrainingState)
    (m : ℚ) (ms : List ℚ)
    (hfine : allFine inp.batches = true)
    (hev : inp.evalRun = Except.ok (m :: ms))
    (hc : s0.converged = false) :
    ((train_one_epoch config inp s0).state.converged = true ↔
      (train_one_epoch config inp s0).state.eval_mAP ≥ config.target_mAP) ∧
    (train_one_epoch config inp s0).state.eval_mAP = m := by
  simp only [train_one_epoch]
  rw [runBatches_allFine _ _ _ _ hfine, hev]
  by_cases hm : m ≥ config.target_mAP
  · by_cases hep : s0.epoch ≥ config.max_epoch <;>
      simp [hm, hep, TrainingState.converged_success]
  · by_cases hep : s0.epoch ≥ config.max_epoch <;>
      simp [hm, hep, hc]

/-- C2: after an epoch whose evaluation completes, the end-of-training
flag is true iff the epoch counter is at least `config.max_epoch`. -/
theorem end_training_iff_max_epoch (config : Config) (inp : EpochInputs) (s0 : TrainingState)
    (m : ℚ) (ms : List ℚ)
    (hfine : allFine inp.batches = true)
    (hev : inp.evalRun = Except.ok (m :: ms))
    (he : s0.end_training = false) :
    ((train_one_epoch config inp s0).state.end_training = true ↔
      s0.epoch ≥ config.max_epoch) := by
  simp only [train_one_epoch]
  rw [runBatches_allFine _ _ _ _ hfine, hev]
  by_cases hm : m ≥ config.target_mAP
  · by_cases hep : s0.epoch ≥ config.max_epoch <;>
      simp [hm, hep, TrainingState.converged_success, he]
  · by_cases hep : s0.epoch ≥ config.max_epoch <;>
      simp [hm, hep, he]

end FlagPerf
namespace FlagPerf

/-- Only warmup creation appears in the creation trace. -/
theorem not_mem_createTrace (epoch : Int) (n : Nat) (e : Event)
    (h : ∀ it, e ≠ Event.warmupCreated it) : e ∉ createTrace epoch n := by
  intro hm
  exact h _ (createTrace_mem epoch n e hm).1

/-- Only backward and warmup steps appear in the mini-batch trace. -/
theorem not_mem_batchTrace (epoch : Int) (i : Nat) (l : List BatchBehavior) (e : Event)
    (h1 : ∀ j, e ≠ Event.backwardStep j) (h2 : e ≠ Event.warmupStep) :
    e ∉ batchTrace epoch i l := by
  intro hm
  rcases batchTrace_mem epoch l i e hm with ⟨j, hj⟩ | hj
  · exact h1 j hj
  · exact h2 hj

/-- C3: if some batch produces a non-finite reduced loss and every earlier
batch completed, the call prints the diagnostics and exits with status 1:
exactly the earlier batches got a backward/optimizer step and evaluation
never runs. -/
theorem nonfinite_loss_exits (config : Config) (inp : EpochInputs) (s0 : TrainingState)
    (pre : List BatchBehavior) (b : BatchBehavior) (post : List BatchBehavior) (v : PyFloat)
    (hsplit : inp.batches = pre ++ b :: post)
    (hfine : allFine pre = true)
    (hv : b.forwardResult = Except.ok v)
    (hnf : v.isfinite = false) :
    (train_one_epoch config inp s0).outcome = Outcome.exited 1 ∧
    Event.printLossDiag v ∈ (train_one_epoch config inp s0).trace ∧
    (∀ j, Event.backwardStep j ∈ (train_one_epoch config inp s0).trace ↔ j < pre.length) ∧
    Event.evaluateCall ∉ (train_one_epoch config inp s0).trace := by
  simp only [train_one_epoch, hsplit]
  rw [runBatches_append _ _ _ _ _ hfine, runBatches_cons_nonfinite _ _ _ _ _ _ hv hnf]
  refine ⟨rfl, ?_, ?_, ?_⟩
  · simp
  · intro j
    simp only [List.mem_append, List.mem_singleton]
    constructor
    · rintro (h | h | h)
      · exact absurd h (not_mem_createTrace _ _ _ (by intro it; simp))
      · have := (batchTrace_mem_backwardStep s0.epoch pre 0 j).mp h
        omega
      · exact absurd h (by simp)
    · intro hj
      refine Or.inr (Or.inl ?_)
      exact (batchTrace_mem_backwardStep s0.epoch pre 0 j).mpr (by omega)
  · simp only [List.mem_append, List.mem_singleton]
    rintro (h | h | h)
    · exact absurd h (not_mem_createTrace _ _ _ (by intro it; simp))
    · exact absurd h (not_mem_batchTrace _ _ _ _ (by intro j; simp) (by simp))
    · simp at h

/-- C4: when every batch completes and evaluation succeeds, the call ends
normally and its trace is: the batch phase, then the per-epoch scheduler
step, then exactly one evaluation, then the write of `eval_mAP` with the
first bbox stat, followed only by the convergence/termination flag
writes. -/
theorem evaluation_once_per_epoch (config : Config) (inp : EpochInputs) (s0 : TrainingState)
    (m : ℚ) (ms : List ℚ)
    (hfine : allFine inp.batches = true)
    (hev : inp.evalRun = Except.ok (m :: ms)) :
    (train_one_epoch config inp s0).outcome = Outcome.normal ∧
    (∃ rest : List Event,
      (train_one_epoch config inp s0).trace =
        createTrace s0.epoch inp.batches.length ++ batchTrace s0.epoch 0 inp.batches ++
          [Event.epochLrStep, Event.evaluateCall, Event.setEvalMAP m] ++ rest ∧
      (∀ e ∈ rest, e = Event.setConverged ∨ e = Event.setEndTraining)) ∧
    List.count Event.evaluateCall (train_one_epoch config inp s0).trace = 1 ∧
    (train_one_epoch config inp s0).state.eval_mAP = m := by
  have hcz : List.count Event.evaluateCall (createTrace s0.epoch inp.batches.length) = 0 :=
    List.count_eq_zero.mpr (not_mem_createTrace _ _ _ (by intro it; simp))
  have hbz : List.count Event.evaluateCall (batchTrace s0.epoch 0 inp.batches) = 0 :=
    List.count_eq_zero.mpr (not_mem_batchTrace _ _ _ _ (by intro j; simp) (by simp))
  simp only [train_one_epoch]
  rw [runBatches_allFine _ _ _ _ hfine, hev]
  by_cases hm : m ≥ config.target_mAP <;> by_cases hep : s0.epoch ≥ config.max_epoch
  · refine ⟨by simp [hm, hep], ⟨[Event.setConverged, Event.setEndTraining], ?_, by simp⟩, ?_, ?_⟩
    · simp [hm, hep, TrainingState.converged_success]
    · simp [hm, hep, List.count_append, List.count_cons, hcz, hbz]
    · simp [hm, hep, TrainingState.converged_success]
  · refine ⟨by simp [hm, hep], ⟨[Event.setConverged], ?_, by simp⟩, ?_, ?_⟩
    · simp [hm, hep, TrainingState.converged_success]
    · simp [hm, hep, List.count_append, List.count_cons, hcz, hbz]
    · simp [hm, hep, TrainingState.converged_success]
  · refine ⟨by simp [hm, hep], ⟨[Event.setEndTraining], ?_, by simp⟩, ?_, ?_⟩
    · simp [hm, hep]
    · simp [hm, hep, List.count_append, List.count_cons, hcz, hbz]
    · simp [hm, hep]
  · refine ⟨by simp [hm, hep], ⟨[], ?_, by simp⟩, ?_, ?_⟩
    · simp [hm, hep]
    · simp [hm, hep, List.count_append, List.count_cons, hcz, hbz]
    · simp [hm, hep]

/-- Nonnegative per-batch times sum to a nonnegative total. -/
theorem sumT_nonneg (l : List BatchBehavior) (h : ∀ b ∈ l, 0 ≤ b.computeTime) :
    0 ≤ sumT l := by
  induction l with
  | nil => simp [sumT]
  | cons b rest ih =>
    simp only [sumT]
    have h1 : (0 : ℚ) ≤ b.computeTime := h b (by simp)
    have h2 : (0 : ℚ) ≤ sumT rest := ih (fun x hx => h x (by simp [hx]))
    linarith

/-- C5: a completed call adds exactly the dataset length to the cumulative
sample count, and (with monotone wall clocks) neither timing accumulator
decreases. -/
theorem state_mutation_per_epoch (config : Config) (inp : EpochInputs) (s0 : TrainingState)
    (m : ℚ) (ms : List ℚ)
    (hfine : allFine inp.batches = true)
    (hev : inp.evalRun = Except.ok (m :: ms))
    (ht : ∀ b ∈ inp.batches, 0 ≤ b.computeTime)
    (hne : 0 ≤ inp.noEvalTime) :
    (train_one_epoch config inp s0).state.num_trained_samples =
      s0.num_trained_samples + inp.datasetLen ∧
    s0.pure_compute_time ≤ (train_one_epoch config inp s0).state.pure_compute_time ∧
    s0.no_eval_time ≤ (train_one_epoch config inp s0).state.no_eval_time := by
  have hs : (0 : ℚ) ≤ sumT inp.batches := sumT_nonneg _ ht
  simp only [train_one_epoch]
  rw [runBatches_allFine _ _ _ _ hfine, hev]
  by_cases hm : m ≥ config.target_mAP <;> by_cases hep : s0.epoch ≥ config.max_epoch <;>
    simp [hm, hep, TrainingState.converged_success] <;> exact ⟨hs, hne⟩

end FlagPerf

namespace FlagPerf

/-- Events other than warmup creation never occur in the creation trace. -/
theorem createTrace_count_eq_zero (epoch : Int) (n : Nat) (e : Event)
    (h : ∀ it, e ≠ Event.warmupCreated it) : List.count e (createTrace epoch n) = 0 :=
  List.count_eq_zero.mpr (not_mem_createTrace epoch n e h)

/-- Events other than backward and warmup steps never occur in the
mini-batch trace. -/
theorem batchTrace_count_eq_zero (epoch : Int) (i : Nat) (l : List BatchBehavior) (e : Event)
    (h1 : ∀ j, e ≠ Event.backwardStep j) (h2 : e ≠ Event.warmupStep) :
    List.count e (batchTrace epoch i l) = 0 :=
  List.count_eq_zero.mpr (not_mem_batchTrace epoch i l e h1 h2)

/-- A completed epoch: normal outcome, `eval_mAP` holding the first bbox
stat, and the trace in program order — warmup creation, the batch phase,
the per-epoch scheduler step, one evaluation, the metric write, then only
flag writes. -/
theorem train_one_epoch_normal_shape (config : Config) (inp : EpochInputs) (s0 : TrainingState)
    (m : ℚ) (ms : List ℚ)
    (hfine : allFine inp.batches = true)
    (hev : inp.evalRun = Except.ok (m :: ms)) :
    (train_one_epoch config inp s0).outcome = Outcome.normal ∧
    (train_one_epoch config inp s0).state.eval_mAP = m ∧
    ∃ rest : List Event,
      (train_one_epoch config inp s0).trace =
        createTrace s0.epoch inp.batches.length ++ batchTrace s0.epoch 0 inp.batches ++
          [Event.epochLrStep, Event.evaluateCall, Event.setEvalMAP m] ++ rest ∧
      (∀ e ∈ rest, e = Event.setConverged ∨ e = Event.setEndTraining) := by
  simp only [train_one_epoch]
  rw [runBatches_allFine _ _ _ _ hfine, hev]
  by_cases hm : m ≥ config.target_mAP <;> by_cases hep : s0.epoch ≥ config.max_epoch
  · exact ⟨by simp [hm, hep], by simp [hm, hep, TrainingState.converged_success],
      [Event.setConverged, Event.setEndTraining],
      by simp [hm, hep, TrainingState.converged_success], by simp⟩
  · exact ⟨by simp [hm, hep], by simp [hm, hep, TrainingState.converged_success],
      [Event.setConverged],
      by simp [hm, hep, TrainingState.converged_success], by simp⟩
  · exact ⟨by simp [hm, hep], by simp [hm, hep],
      [Event.setEndTraining], by simp [hm, hep], by simp⟩
  · exact ⟨by simp [hm, hep], by simp [hm, hep],
      [], by simp [hm, hep], by simp⟩

/-- C6: the first exception any framework call raises propagates uncaught
out of `train_one_epoch`. -/
theorem exceptions_propagate (config : Config) (inp : EpochInputs) (s0 : TrainingState)
    (e : Err) (h : raisesFirst inp e) :
    (train_one_epoch config inp s0).outcome = Outcome.raised e := by
  rcases h with ⟨pre, b, post, hsplit, hfine, hcase⟩ | ⟨hfine, hev⟩
  · simp only [train_one_epoch, hsplit]
    rw [runBatches_append _ _ _ _ _ hfine]
    rcases hcase with hf | ⟨v, hf, hfin, hb⟩
    · rw [runBatches_cons_forwardError _ _ _ _ _ _ hf]
    · rw [runBatches_cons_backwardError _ _ _ _ _ _ _ hf hfin hb]
  · simp only [train_one_epoch]
    rw [runBatches_allFine _ _ _ _ hfine, hev]

/-- C7: neither `train_one_epoch`, nor `init`, nor `evaluate` writes any
field of `self.config`. -/
theorem config_immutable (config : Config) (inp : EpochInputs) (s0 : TrainingState)
    (einp : EvalInputs) :
    (train_one_epoch config inp s0).config = config ∧
    (Trainer.init config).config = config ∧
    (Trainer.evaluate config einp).config = config := by
  refine ⟨?_, rfl, ?_⟩
  · simp only [train_one_epoch]
    split
    · rfl
    · rfl
    · split <;> rfl
  · unfold Trainer.evaluate
    split <;> rfl

/-- C8: `train_one_epoch` never clears a termination flag: a converged or
end-of-training flag that is set stays set through the call, whatever the
batches and the evaluation do. -/
theorem termination_flags_monotone (config : Config) (inp : EpochInputs) (s0 : TrainingState) :
    (s0.converged = true → (train_one_epoch config inp s0).state.converged = true) ∧
    (s0.end_training = true → (train_one_epoch config inp s0).state.end_training = true) := by
  have hp := runBatches_preserves s0.epoch inp.batches 0 s0
  constructor
  · intro hc
    simp only [train_one_epoch]
    repeat' split
    all_goals first
      | rfl
      | exact hp.1.trans hc
  · intro he
    simp only [train_one_epoch]
    repeat' split
    all_goals first
      | rfl
      | exact hp.2.1.trans he

/-- C9: the warmup lr scheduler is created (with
`warmup_iters = min(1000, numBatches - 1)`) and stepped — once per batch —
only in epoch 0; in any later epoch no warmup scheduler exists and only
the per-epoch scheduler steps, once. -/
theorem warmup_scheduler_policy (config : Config) (inp : EpochInputs) (s0 : TrainingState)
    (m : ℚ) (ms : List ℚ)
    (hfine : allFine inp.batches = true)
    (hev : inp.evalRun = Except.ok (m :: ms)) :
    (s0.epoch = 0 →
      Event.warmupCreated (min 1000 ((inp.batches.length : Int) - 1)) ∈
        (train_one_epoch config inp s0).trace ∧
      List.count Event.warmupStep (train_one_epoch config inp s0).trace =
        inp.batches.length) ∧
    (0 < s0.epoch →
      List.count Event.warmupStep (train_one_epoch config inp s0).trace = 0 ∧
      (∀ it : Int, Event.warmupCreated it ∉ (train_one_epoch config inp s0).trace) ∧
      List.count Event.epochLrStep (train_one_epoch config inp s0).trace = 1) := by
  obtain ⟨-, -, rest, htr, hrest⟩ :=
    train_one_epoch_normal_shape config inp s0 m ms hfine hev
  have hrw : Event.warmupStep ∉ rest := fun hmem => by
    rcases hrest _ hmem with h | h <;> exact absurd h (by simp)
  have hrl : Event.epochLrStep ∉ rest := fun hmem => by
    rcases hrest _ hmem with h | h <;> exact absurd h (by simp)
  have hbw := batchTrace_count_warmupStep s0.epoch inp.batches 0
  constructor
  · intro h0
    constructor
    · rw [htr]
      simp [createTrace, h0]
    · rw [htr, h0]
      rw [h0] at hbw
      simp only [if_pos rfl] at hbw
      simp [List.count_append, List.count_cons, List.count_eq_zero.mpr hrw, hbw,
        createTrace_count_eq_zero 0 inp.batches.length Event.warmupStep (by intro it; simp)]
  · intro hpos
    have h0 : ¬s0.epoch = 0 := by omega
    refine ⟨?_, ?_, ?_⟩
    · rw [htr]
      simp [List.count_append, List.count_cons, List.count_eq_zero.mpr hrw, hbw, h0,
        createTrace_count_eq_zero s0.epoch inp.batches.length Event.warmupStep (by intro it; simp)]
    · intro it
      rw [htr]
      intro hmem
      rcases List.mem_append.mp hmem with hmem1 | hcr
      · rcases List.mem_append.mp hmem1 with hmem2 | hcm
        · rcases List.mem_append.mp hmem2 with hcc | hcb
          · exact h0 (createTrace_mem _ _ _ hcc).2
          · exact absurd hcb (not_mem_batchTrace _ _ _ _ (by intro j; simp) (by simp))
        · simp at hcm
      · rcases hrest _ hcr with h | h <;> exact absurd h (by simp)
    · rw [htr]
      simp [List.count_append, List.count_cons, List.count_eq_zero.mpr hrl,
        createTrace_count_eq_zero s0.epoch inp.batches.length Event.epochLrStep (by intro it; simp),
        batchTrace_count_eq_zero s0.epoch 0 inp.batches Event.epochLrStep (by intro j; simp) (by simp)]

end FlagPerf

namespace Gpt3Config

/-- C10: the GPT-3 config declares a warmup longer than the whole run:
`warmup_steps = 188 > 100 = max_steps`, so every step of the configured
run lies in the warmup phase and cosine decay is never reached. -/
theorem warmup_exceeds_run :
    warmup_steps = 188 ∧ max_steps = 100 ∧ max_steps < warmup_steps ∧
    ∀ s : Nat, s < max_steps → inWarmupPhase s = true := by
  refine ⟨rfl, rfl, by decide, ?_⟩
  intro s hs
  unfold inWarmupPhase warmup_steps
  unfold max_steps at hs
  simp only [decide_eq_true_eq]
  omega

end Gpt3Config

namespace FlagPerf

/-- Witness for the convergence-flag criterion at a concrete run. -/
theorem converged_iff_target_witness :
    ((train_one_epoch cfg0 inpOk state0).state.converged = true ↔
      (train_one_epoch cfg0 inpOk state0).state.eval_mAP ≥ cfg0.target_mAP) ∧
    (train_one_epoch cfg0 inpOk state0).state.eval_mAP = mkRat 2 5 :=
  converged_iff_target cfg0 inpOk state0 (mkRat 2 5) [mkRat 3 5] rfl rfl rfl

/-- Witness for the end-of-training criterion at a concrete run. -/
theorem end_training_iff_max_epoch_witness :
    (train_one_epoch cfg0 inpOk state0).state.end_training = true ↔
      state0.epoch ≥ cfg0.max_epoch :=
  end_training_iff_max_epoch cfg0 inpOk state0 (mkRat 2 5) [mkRat 3 5] rfl rfl rfl

/-- Witness for the non-finite-loss exit at a concrete run with a NaN loss
in the second mini-batch. -/
theorem nonfinite_loss_exits_witness :
    (train_one_epoch cfg0 inpNan state0).outcome = Outcome.exited 1 ∧
    Event.printLossDiag PyFloat.nan ∈ (train_one_epoch cfg0 inpNan state0).trace ∧
    (∀ j, Event.backwardStep j ∈ (train_one_epoch cfg0 inpNan state0).trace ↔
      j < [goodBatch].length) ∧
    Event.evaluateCall ∉ (train_one_epoch cfg0 inpNan state0).trace :=
  nonfinite_loss_exits cfg0 inpNan state0 [goodBatch] badLossBatch [goodBatch] PyFloat.nan
    rfl rfl rfl rfl

/-- Witness for the once-per-epoch evaluation at a concrete run. -/
theorem evaluation_once_per_epoch_witness :
    (train_one_epoch cfg0 inpOk state0).outcome = Outcome.normal ∧
    (∃ rest : List Event,
      (train_one_epoch cfg0 inpOk state0).trace =
        createTrace state0.epoch inpOk.batches.length ++
          batchTrace state0.epoch 0 inpOk.batches ++
          [Event.epochLrStep, Event.evaluateCall, Event.setEvalMAP (mkRat 2 5)] ++ rest ∧
      (∀ e ∈ rest, e = Event.setConverged ∨ e = Event.setEndTraining)) ∧
    List.count Event.evaluateCall (train_one_epoch cfg0 inpOk state0).trace = 1 ∧
    (train_one_epoch cfg0 inpOk state0).state.eval_mAP = mkRat 2 5 :=
  evaluation_once_per_epoch cfg0 inpOk state0 (mkRat 2 5) [mkRat 3 5] rfl rfl

/-- Witness for the per-epoch state mutation at a concrete run. -/
theorem state_mutation_per_epoch_witness :
    (train_one_epoch cfg0 inpOk state0).state.num_trained_samples =
      state0.num_trained_samples + inpOk.datasetLen ∧
    state0.pure_compute_time ≤ (train_one_epoch cfg0 inpOk state0).state.pure_compute_time ∧
    state0.no_eval_time ≤ (train_one_epoch cfg0 inpOk state0).state.no_eval_time :=
  state_mutation_per_epoch cfg0 inpOk state0 (mkRat 2 5) [mkRat 3 5] rfl rfl
    (by decide) (by decide)

/-- Witness for exception propagation: a fault raised by evaluation
escapes the call. -/
theorem exceptions_propagate_witness :
    (train_one_epoch cfg0 inpComm state0).outcome = Outcome.raised Err.comm :=
  exceptions_propagate cfg0 inpComm state0 Err.comm (Or.inr ⟨rfl, rfl⟩)

/-- Witness for flag monotonicity at a concrete run starting with both
flags set. -/
theorem termination_flags_monotone_witness :
    (train_one_epoch cfg0 inpOk stateFlags).state.converged = true ∧
    (train_one_epoch cfg0 inpOk stateFlags).state.end_training = true :=
  ⟨(termination_flags_monotone cfg0 inpOk stateFlags).1 rfl,
   (termination_flags_monotone cfg0 inpOk stateFlags).2 rfl⟩

/-- Witness for the warmup-scheduler policy at a concrete epoch-0 run. -/
theorem warmup_scheduler_policy_witness :
    Event.warmupCreated (min 1000 ((inpOk.batches.length : Int) - 1)) ∈
      (train_one_epoch cfg0 inpOk state0).trace ∧
    List.count Event.warmupStep (train_one_epoch cfg0 inpOk state0).trace =
      inpOk.batches.length :=
  (warmup_scheduler_policy cfg0 inpOk state0 (mkRat 2 5) [mkRat 3 5] rfl rfl).1 rfl


end FlagPerf

namespace Gpt3Config

/-- Witness: step 99 — the last step of the configured run — is still in
the warmup phase. -/
theorem warmup_exceeds_run_witness :
    99 < max_steps ∧ inWarmupPhase 99 = true :=
  ⟨by decide, warmup_exceeds_run.2.2.2 99 (by decide)⟩

end Gpt3Config
